import Mathlib

/-!
A verification development for the share-management core of the client
(`src/gui/sharemanager.cpp`).  The C++ code is embedded shallowly:

* JSON payloads (Qt's `QJsonValue`/`QJsonObject`/`QJsonDocument` API) become
  the inductive type `JVal` with accessors mirroring the Qt semantics used by
  the code (`value` on a missing key yields `undefined`, `toString` of a
  non-string yields `""`, `toInt` of a non-number yields `0`, ...).
* Entities (`Share`, `LinkShare`, `Sharee`) become structures.
* Each asynchronous completion handler (`slot...`) becomes a pure function
  from its inputs to the updated entity (where applicable), the list of
  emitted events, and the list of remote paths passed to `updateFolder`
  (the cache-invalidation notifier).
* `updateFolder`'s path matching is embedded over `List Char` so that the
  character-level prefix/boundary tests of the C++ code are explicit.

Numbers in payloads are modelled as integers: every numeric field consumed by
this code (`id`, `permissions`, `share_type`, `statuscode`) is integral.
-/

/-- JSON values as seen through the Qt JSON API. `undefined` is the value
returned by `QJsonObject::value` for an absent key. -/
inductive JVal where
  | undefined : JVal
  | jnull : JVal
  | jbool : Bool → JVal
  | num : Int → JVal
  | str : String → JVal
  | arr : List JVal → JVal
  | obj : List (String × JVal) → JVal

/-- Association-list lookup used by `JVal.get`; first binding wins
(a `QJsonObject` has unique keys). -/
def lookupField (key : String) : List (String × JVal) → JVal
  | [] => JVal.undefined
  | (k, v) :: rest => if k == key then v else lookupField key rest

/-- `v.toObject().value(key)`: field lookup, `undefined` when `v` is not an
object (Qt's `toObject` of a non-object is the empty object) or the key is
absent. -/
def JVal.get (v : JVal) (key : String) : JVal :=
  match v with
  | .obj fields => lookupField key fields
  | _ => .undefined

/-- `QJsonObject::contains` (false when the receiver is not an object,
matching `toObject` of a non-object being empty). -/
def JVal.containsKey (v : JVal) (key : String) : Bool :=
  match v with
  | .obj fields => fields.any (fun kv => kv.1 == key)
  | _ => false

/-- `QJsonValue::isString`. -/
def JVal.isString : JVal → Bool
  | .str _ => true
  | _ => false

/-- `QJsonValue::toString()`: the string, or `""` for a non-string. -/
def JVal.asString : JVal → String
  | .str s => s
  | _ => ""

/-- `QJsonValue::toInt()`: the number, or `0` for a non-number. -/
def JVal.asInt : JVal → Int
  | .num n => n
  | _ => 0

/-- `QJsonValue::toArray()`: the elements, or `[]` for a non-array. -/
def JVal.asArray : JVal → List JVal
  | .arr xs => xs
  | _ => []

/-- `QJsonValue::toVariant().toString()`, the id-normalization path of both
parsers: a string stays itself, a number is rendered in decimal, a boolean as
`true`/`false`, anything else becomes `""`. -/
def JVal.variantString : JVal → String
  | .str s => s
  | .num n => toString n
  | .jbool b => if b then "true" else "false"
  | _ => ""

/-- `QVariant::toInt` for the integral payloads this code routes through a
variant (the permissions echoed by `setPermissions`). -/
def JVal.variantInt : JVal → Int
  | .num n => n
  | _ => 0

/-- `QJsonValue(v) == QJsonValue(s)` where `s` is a `QString` (the
`map["file_target"] == path` comparison in `createShare`): true iff `v` is
the string `s`. -/
def JVal.eqString (v : JVal) (s : String) : Bool :=
  match v with
  | .str t => t == s
  | _ => false

/-- Modelled from the spec: the `SharePermission` bit constants live in a
header that is not part of this source set; the spec describes a bitmask
over Read/Create/Update/Delete/Share plus a distinct `Default` sentinel
("not yet constrained"), the OCS wire encoding. -/
def SharePermissionRead : Int := 1

def SharePermissionUpdate : Int := 2

def SharePermissionCreate : Int := 4

def SharePermissionDelete : Int := 8

def SharePermissionShare : Int := 16

/-- Modelled from the spec: the `Default` sentinel, a value disjoint from all
permission bits (`1 << 30`). -/
def SharePermissionDefault : Int := 1073741824

/-- Modelled from the spec: `share_type` codes of the OCS protocol; the
code only discriminates `TypeLink`. -/
def ShareTypeLink : Int := 3

/-- The slice of the session/account object this code reads: the numeric
server version and the base url. -/
structure ServerAccount where
  serverVersionInt : Nat
  url : String
deriving DecidableEq

/-- Modelled from the spec: `Account::makeServerVersion(major, minor, patch)`
packs the components into one integer (major·2^16 + minor·2^8 + patch); the
code only compares the session's packed version against 8.0.0. -/
def makeServerVersion (major minor patch : Nat) : Nat :=
  major * 65536 + minor * 256 + patch

/-- Recipient descriptor built by `parseShare`. -/
structure Sharee where
  shareWith : String
  displayName : String
  shareeType : Int
deriving DecidableEq

/-- The `Share` entity (fields read/written by this code). -/
structure Share where
  account : ServerAccount
  id : String
  path : String
  shareType : Int
  permissions : Int
  shareWith : Sharee
deriving DecidableEq

/-- How a `LinkShare` url was produced: verbatim from the payload's `url`
field, or by joining the account base url with a path
(`Utility::concatUrlPath`), optionally carrying query parameters. The join
itself is an external collaborator; the constructor records its arguments. -/
inductive ParsedUrl where
  | verbatim : String → ParsedUrl
  | joined : String → String → ParsedUrl
  | joinedQuery : String → String → List (String × String) → ParsedUrl
deriving DecidableEq

/-- The `LinkShare` entity. `expireDate` holds the expiration string handed
to the external date parser (pattern `yyyy-MM-dd 00:00:00`) when the payload
field was a string, and is unset otherwise. -/
structure LinkShare where
  account : ServerAccount
  id : String
  path : String
  name : String
  token : String
  permissions : Int
  passwordSet : Bool
  url : ParsedUrl
  expireDate : Option String
deriving DecidableEq

/-- `LinkShare::isPasswordSet`. -/
def isPasswordSet (ls : LinkShare) : Bool :=
  ls.passwordSet

/-- A fetched share: `slotSharesFetched` dispatches each payload element to
one of the two parsers. -/
inductive ParsedShare where
  | link : LinkShare → ParsedShare
  | generic : Share → ParsedShare
deriving DecidableEq

/-- The events (Qt signals) this code emits. -/
inductive Event where
  | shareCreated : Share → Event
  | linkShareCreated : LinkShare → Event
  | linkShareRequiresPassword : String → Event
  | sharesFetched : List ParsedShare → Event
  | permissionsSet : Event
  | passwordSet : Event
  | passwordSetError : Int → String → Event
  | nameSet : Event
  | expireDateSet : Event
  | shareDeleted : Event
  | serverError : Int → String → Event
deriving DecidableEq

/-- `ShareManager::parseLinkShare` (lines 372–403): url resolution in priority
order (explicit `url` field; version ≥ 8.0.0 scheme; legacy `public.php`
scheme), expiration parsing gated on the field being a string, id
normalization through a variant, `passwordSet` from `share_with` being a
string. -/
def parseLinkShare (account : ServerAccount) (data : JVal) : LinkShare :=
  let url : ParsedUrl :=
    if data.containsKey "url" then
      .verbatim (data.get "url").asString
    else if account.serverVersionInt ≥ makeServerVersion 8 0 0 then
      .joined account.url ("index.php/s/" ++ (data.get "token").asString)
    else
      .joinedQuery account.url "public.php"
        [("service", "files"), ("t", (data.get "token").asString)]
  let expireDate : Option String :=
    if (data.get "expiration").isString then
      some (data.get "expiration").asString
    else
      none
  { account := account
    id := (data.get "id").variantString
    path := (data.get "path").asString
    name := (data.get "name").asString
    token := (data.get "token").asString
    permissions := (data.get "permissions").asInt
    passwordSet := (data.get "share_with").isString
    url := url
    expireDate := expireDate }

/-- `ShareManager::parseShare` (lines 405–417). -/
def parseShare (account : ServerAccount) (data : JVal) : Share :=
  let sharee : Sharee :=
    { shareWith := (data.get "share_with").asString
      displayName := (data.get "share_with_displayname").asString
      shareeType := (data.get "share_type").asInt }
  { account := account
    id := (data.get "id").variantString
    path := (data.get "path").asString
    shareType := (data.get "share_type").asInt
    permissions := (data.get "permissions").asInt
    shareWith := sharee }

/-- `ocs.data` extraction shared by the success handlers
(`reply.object().value("ocs").toObject().value("data")`). -/
def ocsData (reply : JVal) : JVal :=
  (reply.get "ocs").get "data"

/-- Modelled from the spec: `OcsShareJob::getJsonReturnCode` lives in
`ocssharejob`/`ocsjob`, which is not part of this source set; per the spec's
envelope description it reads the numeric status code and the message out of
the reply's `ocs.meta` section. -/
def getJsonReturnCode (reply : JVal) : Int × String :=
  ((((reply.get "ocs").get "meta").get "statuscode").asInt,
   (((reply.get "ocs").get "meta").get "message").asString)

/-- `ShareManager::slotLinkShareCreated` (lines 265–286): a 403 status is
reinterpreted as "requires a password"; otherwise the reply's data is parsed
into a `LinkShare`, `linkShareCreated` is emitted and the share's path is
invalidated. Returns (emitted events, paths passed to `updateFolder`). -/
def slotLinkShareCreated (account : ServerAccount) (reply : JVal) :
    List Event × List String :=
  let code := (getJsonReturnCode reply).1
  let message := (getJsonReturnCode reply).2
  if code = 403 then
    ([.linkShareRequiresPassword message], [])
  else
    let share := parseLinkShare account (ocsData reply)
    ([.linkShareCreated share], [share.path])

/-- The create-share request issued by the second phase of
`ShareManager::createShare`. -/
structure CreateShareRequest where
  path : String
  shareType : Int
  shareWith : String
  permissions : Int
deriving DecidableEq

/-- The scan of the shared-with-me list in `createShare`'s completion lambda
(lines 299–304): start from `Default` and take the `permissions` of each
element whose `file_target` equals `path` (so the last match wins). -/
def findExistingPermissions (path : String) (elements : List JVal) : Int :=
  elements.foldl
    (fun acc element =>
      if (element.get "file_target").eqString path then
        (element.get "permissions").asInt
      else
        acc)
    SharePermissionDefault

/-- The permission negotiation in `createShare`'s completion lambda
(lines 308–314): `validPermissions` starts from the desired permissions,
falls back to the existing ones when desired is the `Default` sentinel, and
is intersected with the existing ones when those are not `Default`. -/
def negotiatedPermissions (desired existing : Int) : Int :=
  let valid0 := desired
  let valid1 := if valid0 = SharePermissionDefault then existing else valid0
  if existing ≠ SharePermissionDefault then Int.land valid1 existing else valid1

/-- `ShareManager::createShare`'s completion lambda (lines 297–320): given
the shared-with-me reply, produce the phase-4 create-share request. -/
def createShareSecondPhase (path : String) (shareType : Int)
    (shareWith : String) (desiredPermissions : Int) (reply : JVal) :
    CreateShareRequest :=
  let existing := findExistingPermissions path (ocsData reply).asArray
  { path := path
    shareType := shareType
    shareWith := shareWith
    permissions := negotiatedPermissions desiredPermissions existing }

/-- `ShareManager::slotShareCreated` (lines 325–334). -/
def slotShareCreated (account : ServerAccount) (reply : JVal) :
    List Event × List String :=
  let share := parseShare account (ocsData reply)
  ([.shareCreated share], [share.path])

/-- The per-element dispatch of `slotSharesFetched` (lines 352–366): a
payload whose `share_type` is `TypeLink` goes to `parseLinkShare`, all others
to `parseShare`. -/
def parseOneFetched (account : ServerAccount) (data : JVal) : ParsedShare :=
  if (data.get "share_type").asInt = ShareTypeLink then
    .link (parseLinkShare account data)
  else
    .generic (parseShare account data)

/-- `ShareManager::slotSharesFetched` (lines 344–370): parse every element of
`ocs.data` in order and emit the list; no invalidation. -/
def slotSharesFetched (account : ServerAccount) (reply : JVal) :
    List Event × List String :=
  let shares := (ocsData reply).asArray.map (parseOneFetched account)
  ([.sharesFetched shares], [])

/-- `Share::slotDeleted` (lines 120–125): emit `shareDeleted`, invalidate the
share's path. -/
def slotDeleted (s : Share) : List Event × List String :=
  ([.shareDeleted], [s.path])

/-- `Share::slotPermissionsSet` (lines 101–105): store the echoed
permissions, emit, no invalidation. -/
def slotPermissionsSet (s : Share) (value : JVal) :
    Share × List Event × List String :=
  ({ s with permissions := value.variantInt }, [.permissionsSet], [])

/-- `LinkShare::slotPasswordSet` (lines 208–212): `passwordSet` becomes
"the echoed value is the empty string"; emit, no invalidation. -/
def slotPasswordSet (ls : LinkShare) (value : JVal) :
    LinkShare × List Event × List String :=
  ({ ls with passwordSet := value.variantString == "" }, [.passwordSet], [])

/-- `LinkShare::slotNameSet` (lines 243–247). -/
def slotNameSet (ls : LinkShare) (value : JVal) :
    LinkShare × List Event × List String :=
  ({ ls with name := value.variantString }, [.nameSet], [])

/-- `QVariant::toDate` for the fallback branch of `slotExpireDateSet`; the
variant holds the date the caller sent (externally parsed), carried here as
its string form when present. -/
def JVal.variantDate : JVal → Option String
  | .str s => some s
  | _ => none

/-- `LinkShare::slotExpireDateSet` (lines 222–236): prefer the `expiration`
string of the reply's data section, else fall back to the echoed variant;
emit, no invalidation. -/
def slotExpireDateSet (ls : LinkShare) (reply : JVal) (value : JVal) :
    LinkShare × List Event × List String :=
  let data := ocsData reply
  let newDate : Option String :=
    if (data.get "expiration").isString then
      some (data.get "expiration").asString
    else
      value.variantDate
  ({ ls with expireDate := newDate }, [.expireDateSet], [])

/-- `Share::slotOcsError` / `ShareManager::slotOcsError`
(lines 127–130, 419–422). -/
def slotOcsError (statusCode : Int) (message : String) : List Event :=
  [.serverError statusCode message]

/-- `LinkShare::slotSetPasswordError` (lines 238–241). -/
def slotSetPasswordError (statusCode : Int) (message : String) : List Event :=
  [.passwordSetError statusCode message]

/-- The per-entity mutator operations. -/
inductive MutatorOp where
  | setPermissionsOp
  | deleteShareOp
  | setNameOp
  | setPasswordOp
  | setExpireDateOp
deriving DecidableEq

/-- The `connect(job, &OcsJob::ocsError, ...)` wiring of each mutator
(lines 97, 116, 191, 204, 218): every mutator routes transport errors to
`slotOcsError` except `setPassword`, which routes them to
`slotSetPasswordError`. -/
def mutatorErrorEvents : MutatorOp → Int → String → List Event
  | .setPermissionsOp, code, message => slotOcsError code message
  | .deleteShareOp, code, message => slotOcsError code message
  | .setNameOp, code, message => slotOcsError code message
  | .setPasswordOp, code, message => slotSetPasswordError code message
  | .setExpireDateOp, code, message => slotOcsError code message

/-- `QString::startsWith`: first argument is the receiver, second the tested
leading segment. -/
def qStartsWith : List Char → List Char → Bool
  | _, [] => true
  | [], _ :: _ => false
  | c :: s, d :: p => c == d && qStartsWith s p

/-- `folderPath.endsWith('/')`. -/
def endsWithSlash (s : List Char) : Bool :=
  s.getLast? == some '/'

/-- The matching condition of `updateFolder` (line 37):
`path.startsWith(folderPath) && (path == folderPath ||
folderPath.endsWith('/') || path[folderPath.size()] == '/')`.
The character access is modelled with `head?` of the dropped remainder,
which agrees with the C++ access at every reachable evaluation (the `&&`/`||`
short-circuits make the index in range whenever it is read). -/
def folderMatches (folderPath path : List Char) : Bool :=
  qStartsWith path folderPath &&
    (path == folderPath || endsWithSlash folderPath ||
      (path.drop folderPath.length).head? == some '/')

/-- The relative path computed by `updateFolder` (lines 40–42):
`path.midRef(folderPath.size())`, with one leading `'/'` stripped. -/
def relativeOf (folderPath path : List Char) : List Char :=
  let r := path.drop folderPath.length
  if r.head? = some '/' then r.drop 1 else r

/-- A configured sync root: the owning account (compared by identity in the
C++ code) and its remote path. -/
structure Folder where
  accountId : Nat
  remotePath : List Char
deriving DecidableEq

/-- `updateFolder` (lines 31–50): for every folder of the account whose
remote path matches, record the pair (folder, relative path) standing for
the calls `journalDb()->avoidReadFromDbOnNextSync(relative)` and
`scheduleThisFolderSoon()` on that folder. -/
def updateFolder (accountId : Nat) (path : List Char)
    (folders : List Folder) : List (Folder × List Char) :=
  folders.filterMap fun f =>
    if f.accountId == accountId && folderMatches f.remotePath path then
      some (f, relativeOf f.remotePath path)
    else
      none

/-- A concrete entity for closed instantiations. -/
def sampleLinkShare : LinkShare :=
  { account := ⟨0, "https://example.test"⟩
    id := "1"
    path := "/p"
    name := ""
    token := "tok"
    permissions := 1
    passwordSet := true
    url := .verbatim ""
    expireDate := none }

theorem lookupField_undefined (key : String) (fields : List (String × JVal))
    (h : fields.any (fun kv => kv.1 == key) = false) :
    lookupField key fields = JVal.undefined := by
  induction fields with
  | nil => rfl
  | cons kv rest ih =>
    obtain ⟨k, v⟩ := kv
    rw [List.any_cons, Bool.or_eq_false_iff] at h
    simp only [lookupField, h.1, Bool.false_eq_true, if_false]
    exact ih h.2

theorem get_of_not_containsKey (v : JVal) (key : String)
    (h : v.containsKey key = false) : v.get key = .undefined := by
  cases v <;> try rfl
  exact lookupField_undefined key _ h

/-- C6: both parsers normalize the payload's `id` through
`toVariant().toString()`, so integer `42` and string `"42"` both become the
canonical string `"42"`. -/
theorem C6_id_normalization :
    (∀ account data, (parseShare account data).id = (data.get "id").variantString) ∧
    (∀ account data, (parseLinkShare account data).id = (data.get "id").variantString) ∧
    (∀ account, (parseShare account (JVal.obj [("id", JVal.num 42)])).id = "42") ∧
    (∀ account, (parseShare account (JVal.obj [("id", JVal.str "42")])).id = "42") ∧
    (∀ account, (parseLinkShare account (JVal.obj [("id", JVal.num 42)])).id = "42") ∧
    (∀ account, (parseLinkShare account (JVal.obj [("id", JVal.str "42")])).id = "42") := by
  refine ⟨fun _ _ => rfl, fun _ _ => rfl, fun _ => rfl, fun _ => rfl,
    fun _ => rfl, fun _ => rfl⟩

/-- C7: `parseLinkShare` sets `passwordSet` exactly when the payload's
`share_with` field is present and is a string; the empty string still counts,
an absent field does not. -/
theorem C7_passwordSet_share_with :
    (∀ account data,
      (parseLinkShare account data).passwordSet = (data.get "share_with").isString) ∧
    (∀ account,
      (parseLinkShare account (JVal.obj [("share_with", JVal.str "")])).passwordSet = true) ∧
    (∀ account, (parseLinkShare account (JVal.obj [])).passwordSet = false) := by
  refine ⟨fun _ _ => rfl, fun _ => rfl, fun _ => rfl⟩

/-- C10: after a successful `setPassword` completion echoing the string `s`,
`isPasswordSet` holds exactly when `s` is empty; a non-empty echoed value
leaves it false. -/
theorem C10_password_echo :
    (∀ ls s, isPasswordSet (slotPasswordSet ls (JVal.str s)).1 = (s == "")) ∧
    (∀ ls s, s ≠ "" → isPasswordSet (slotPasswordSet ls (JVal.str s)).1 = false) ∧
    (∀ ls, isPasswordSet (slotPasswordSet ls (JVal.str "")).1 = true) ∧
    (∀ ls, isPasswordSet (slotPasswordSet ls (JVal.str "secret")).1 = false) := by
  refine ⟨fun _ _ => rfl, ?_, fun _ => rfl, fun _ => rfl⟩
  intro ls s h
  simp [isPasswordSet, slotPasswordSet, JVal.variantString, h]

/-- Closed instantiation of `C10_password_echo` at a non-empty echoed
password. -/
theorem C10_password_echo_witness :
    isPasswordSet (slotPasswordSet sampleLinkShare (JVal.str "secret")).1 = false :=
  C10_password_echo.2.1 sampleLinkShare "secret" (by decide)

/-- C2: `parseLinkShare` resolves the url in priority order — explicit `url`
field verbatim regardless of server version; else the `index.php/s/<token>`
join for server versions at least 8.0.0; else the legacy `public.php` join
with query `service=files&t=<token>`. -/
theorem C2_url_resolution :
    (∀ account data s, data.get "url" = JVal.str s →
      (parseLinkShare account data).url = ParsedUrl.verbatim s) ∧
    (∀ account data, data.containsKey "url" = true →
      (parseLinkShare account data).url = ParsedUrl.verbatim (data.get "url").asString) ∧
    (∀ account data, data.containsKey "url" = false →
      account.serverVersionInt ≥ makeServerVersion 8 0 0 →
      (parseLinkShare account data).url =
        ParsedUrl.joined account.url ("index.php/s/" ++ (data.get "token").asString)) ∧
    (∀ account data, data.containsKey "url" = false →
      account.serverVersionInt < makeServerVersion 8 0 0 →
      (parseLinkShare account data).url =
        ParsedUrl.joinedQuery account.url "public.php"
          [("service", "files"), ("t", (data.get "token").asString)]) := by
  have hyes : ∀ account data, data.containsKey "url" = true →
      (parseLinkShare account data).url = ParsedUrl.verbatim (data.get "url").asString := by
    intro account data h
    simp [parseLinkShare, h]
  refine ⟨?_, hyes, ?_, ?_⟩
  · intro account data s h
    rcases hc : data.containsKey "url" with _ | _
    · exact absurd (get_of_not_containsKey data "url" hc) (by rw [h]; intro hk; cases hk)
    · rw [hyes account data hc, h]
      rfl
  · intro account data h hv
    simp [parseLinkShare, h, hv]
  · intro account data h hv
    simp [parseLinkShare, h, Nat.not_le.mpr hv]

/-- Closed instantiation of `C2_url_resolution`: a payload with an explicit
url field parses to that url verbatim even on a 9.0.0 server, and without the
field the two version-dependent schemes are chosen. -/
theorem C2_url_resolution_witness :
    (parseLinkShare ⟨makeServerVersion 9 0 0, "https://srv"⟩
        (JVal.obj [("url", JVal.str "https://explicit/x")])).url =
      ParsedUrl.verbatim "https://explicit/x" ∧
    (parseLinkShare ⟨makeServerVersion 8 0 0, "https://srv"⟩
        (JVal.obj [("token", JVal.str "T")])).url =
      ParsedUrl.joined "https://srv" ("index.php/s/" ++ (JVal.str "T").asString) ∧
    (parseLinkShare ⟨makeServerVersion 7 9 9, "https://srv"⟩
        (JVal.obj [("token", JVal.str "T")])).url =
      ParsedUrl.joinedQuery "https://srv" "public.php"
        [("service", "files"), ("t", (JVal.str "T").asString)] := by
  refine ⟨?_, ?_, ?_⟩
  · exact C2_url_resolution.1 _ _ "https://explicit/x" rfl
  · exact C2_url_resolution.2.2.1 _ _ (by decide) (by decide)
  · exact C2_url_resolution.2.2.2 _ _ (by decide) (by decide)

theorem foldl_scan_no_match (path : String) (elements : List JVal) (acc : Int)
    (h : ∀ e ∈ elements, (e.get "file_target").eqString path = false) :
    elements.foldl
      (fun acc element =>
        if (element.get "file_target").eqString path then
          (element.get "permissions").asInt
        else
          acc)
      acc = acc := by
  induction elements generalizing acc with
  | nil => rfl
  | cons e rest ih =>
    rw [List.foldl_cons, h e (List.mem_cons_self e rest)]
    exact ih acc (fun x hx => h x (List.mem_cons_of_mem e hx))

/-- The shared-with-me reply used by the concrete negotiation examples: one
entry targeting `/docs` with permissions `Read|Update`. -/
def replyReadUpdate : JVal :=
  .obj [("ocs", .obj [("data", .arr
    [.obj [("file_target", .str "/docs"), ("permissions", .num 3)]])])]

/-- A shared-with-me reply whose data array is empty. -/
def emptyDataReply : JVal :=
  .obj [("ocs", .obj [("data", .arr [])])]

/-- C1: the phase-4 create-share request's permissions follow the negotiation
rule — start from the desired permissions, fall back to the existing ones when
desired is `Default`, intersect with the existing ones when those are not
`Default`; when no shared-with-me entry targets the path the desired
permissions pass through unmodified. Concretely: `Default` against
`Read|Update` yields `Read|Update`, `Read|Create|Delete` against
`Read|Update` yields `Read`. -/
theorem C1_permission_negotiation :
    (∀ path shareType shareWith desired reply,
      (∀ e ∈ (ocsData reply).asArray, (e.get "file_target").eqString path = false) →
      (createShareSecondPhase path shareType shareWith desired reply).permissions = desired) ∧
    (∀ desired, negotiatedPermissions desired SharePermissionDefault = desired) ∧
    (∀ desired existing, existing ≠ SharePermissionDefault →
      negotiatedPermissions desired existing =
        Int.land (if desired = SharePermissionDefault then existing else desired) existing) ∧
    ((createShareSecondPhase "/docs" 0 "bob" SharePermissionDefault
        replyReadUpdate).permissions = Int.lor SharePermissionRead SharePermissionUpdate) ∧
    ((createShareSecondPhase "/docs" 0 "bob"
        (Int.lor SharePermissionRead (Int.lor SharePermissionCreate SharePermissionDelete))
        replyReadUpdate).permissions = SharePermissionRead) := by
  have hdef : ∀ desired, negotiatedPermissions desired SharePermissionDefault = desired := by
    intro desired
    by_cases h : desired = SharePermissionDefault <;>
      simp [negotiatedPermissions, h]
  refine ⟨?_, hdef, ?_, by decide, by decide⟩
  · intro path shareType shareWith desired reply h
    have hex : findExistingPermissions path (ocsData reply).asArray =
        SharePermissionDefault :=
      foldl_scan_no_match path _ _ h
    show negotiatedPermissions desired (findExistingPermissions path (ocsData reply).asArray)
        = desired
    rw [hex, hdef]
  · intro desired existing h
    simp [negotiatedPermissions, h]

/-- Closed instantiation of `C1_permission_negotiation`: with an empty
shared-with-me list the requested permissions are the desired ones. -/
theorem C1_permission_negotiation_witness :
    (createShareSecondPhase "/docs" 0 "bob" 5 emptyDataReply).permissions = 5 :=
  C1_permission_negotiation.1 "/docs" 0 "bob" 5 emptyDataReply
    (by
      intro e he
      rw [show (ocsData emptyDataReply).asArray = [] from rfl] at he
      cases he)

/-- A create-link-share completion reporting status 403 with the message
`Password required`. -/
def reply403 : JVal :=
  .obj [("ocs", .obj [("meta", .obj
    [("statuscode", .num 403), ("message", .str "Password required")])])]

/-- C3: a create-link-share completion with status code 403 emits only the
distinguished `linkShareRequiresPassword` event carrying the server message —
no generic server error, no `linkShareCreated` entity, no invalidation; any
other completion parses the payload, emits `linkShareCreated` and invalidates
the share's path. -/
theorem C3_linkShare_403 :
    (∀ account reply, (getJsonReturnCode reply).1 = 403 →
      slotLinkShareCreated account reply =
        ([Event.linkShareRequiresPassword (getJsonReturnCode reply).2], [])) ∧
    (∀ account reply, (getJsonReturnCode reply).1 = 403 →
      ∀ c m, Event.serverError c m ∉ (slotLinkShareCreated account reply).1) ∧
    (∀ account reply, (getJsonReturnCode reply).1 = 403 →
      ∀ ls, Event.linkShareCreated ls ∉ (slotLinkShareCreated account reply).1) ∧
    (∀ account reply, (getJsonReturnCode reply).1 = 403 →
      (slotLinkShareCreated account reply).2 = []) ∧
    (∀ account reply, (getJsonReturnCode reply).1 ≠ 403 →
      slotLinkShareCreated account reply =
        ([Event.linkShareCreated (parseLinkShare account (ocsData reply))],
         [(parseLinkShare account (ocsData reply)).path])) ∧
    (∀ account, slotLinkShareCreated account reply403 =
      ([Event.linkShareRequiresPassword "Password required"], [])) := by
  have h403 : ∀ account reply, (getJsonReturnCode reply).1 = 403 →
      slotLinkShareCreated account reply =
        ([Event.linkShareRequiresPassword (getJsonReturnCode reply).2], []) := by
    intro account reply h
    simp [slotLinkShareCreated, h]
  refine ⟨h403, ?_, ?_, ?_, ?_, ?_⟩
  · intro account reply h c m
    rw [h403 account reply h]
    simp
  · intro account reply h ls
    rw [h403 account reply h]
    simp
  · intro account reply h
    rw [h403 account reply h]
  · intro account reply h
    simp [slotLinkShareCreated, h]
  · intro account
    exact h403 account reply403 rfl

/-- Closed instantiation of `C3_linkShare_403` at the spec's end-to-end
example: status 403 and message `Password required`. -/
theorem C3_linkShare_403_witness :
    slotLinkShareCreated ⟨0, "https://srv"⟩ reply403 =
      ([Event.linkShareRequiresPassword (getJsonReturnCode reply403).2], []) ∧
    Event.serverError 403 "Password required" ∉
      (slotLinkShareCreated ⟨0, "https://srv"⟩ reply403).1 := by
  refine ⟨C3_linkShare_403.1 ⟨0, "https://srv"⟩ reply403 rfl, ?_⟩
  exact C3_linkShare_403.2.1 ⟨0, "https://srv"⟩ reply403 rfl 403 "Password required"

/-- The payload elements of the spec's two-element fetch example. -/
def elemLinkPayload : JVal :=
  .obj [("share_type", .num 3), ("id", .str "a"), ("token", .str "T")]

/-- Second element of the fetch example: a user share. -/
def elemUserPayload : JVal :=
  .obj [("share_type", .num 0), ("id", .str "b")]

/-- The fetch reply carrying the two elements in order. -/
def replyTwoShares : JVal :=
  .obj [("ocs", .obj [("data", .arr [elemLinkPayload, elemUserPayload])])]

/-- C5: a successful fetch parses every element of the reply's data array in
server order — `parseLinkShare` for `share_type = Link`, `parseShare`
otherwise — and emits a list of the same length in the same order, with no
invalidation. -/
theorem C5_fetchShares_dispatch :
    (∀ account reply, slotSharesFetched account reply =
      ([Event.sharesFetched ((ocsData reply).asArray.map (parseOneFetched account))], [])) ∧
    (∀ account reply,
      ((ocsData reply).asArray.map (parseOneFetched account)).length =
        (ocsData reply).asArray.length) ∧
    (∀ account reply (i : Nat),
      ((ocsData reply).asArray.map (parseOneFetched account))[i]? =
        ((ocsData reply).asArray[i]?).map (parseOneFetched account)) ∧
    (∀ account e, (e.get "share_type").asInt = ShareTypeLink →
      parseOneFetched account e = .link (parseLinkShare account e)) ∧
    (∀ account e, (e.get "share_type").asInt ≠ ShareTypeLink →
      parseOneFetched account e = .generic (parseShare account e)) ∧
    (∀ account, (slotSharesFetched account replyTwoShares).1 =
      [Event.sharesFetched
        [.link (parseLinkShare account elemLinkPayload),
         .generic (parseShare account elemUserPayload)]]) ∧
    (∀ account reply, (slotSharesFetched account reply).2 = []) := by
  refine ⟨fun _ _ => rfl, fun _ _ => by simp, fun _ _ _ => by simp, ?_, ?_,
    fun _ => rfl, fun _ _ => rfl⟩
  · intro account e h
    simp [parseOneFetched, h]
  · intro account e h
    simp [parseOneFetched, h]

/-- Closed instantiation of `C5_fetchShares_dispatch`: the dispatch on the
two concrete payload elements. -/
theorem C5_fetchShares_dispatch_witness :
    parseOneFetched ⟨0, "https://srv"⟩ elemLinkPayload =
      .link (parseLinkShare ⟨0, "https://srv"⟩ elemLinkPayload) ∧
    parseOneFetched ⟨0, "https://srv"⟩ elemUserPayload =
      .generic (parseShare ⟨0, "https://srv"⟩ elemUserPayload) := by
  refine ⟨?_, ?_⟩
  · exact C5_fetchShares_dispatch.2.2.2.1 ⟨0, "https://srv"⟩ elemLinkPayload rfl
  · exact C5_fetchShares_dispatch.2.2.2.2.1 ⟨0, "https://srv"⟩ elemUserPayload (by decide)

/-- C8: the invalidation notifier runs exactly on the successful create-share,
create-link-share (non-403) and delete completions — each invalidating the
share's path — and never on fetch completions or the four field-only update
completions. -/
theorem C8_invalidation_frame :
    (∀ account reply, (slotShareCreated account reply).2 =
      [(parseShare account (ocsData reply)).path]) ∧
    (∀ account reply, (getJsonReturnCode reply).1 ≠ 403 →
      (slotLinkShareCreated account reply).2 =
        [(parseLinkShare account (ocsData reply)).path]) ∧
    (∀ s, (slotDeleted s).2 = [s.path]) ∧
    (∀ account reply, (slotSharesFetched account reply).2 = []) ∧
    (∀ s value, (slotPermissionsSet s value).2.2 = []) ∧
    (∀ ls value, (slotNameSet ls value).2.2 = []) ∧
    (∀ ls value, (slotPasswordSet ls value).2.2 = []) ∧
    (∀ ls reply value, (slotExpireDateSet ls reply value).2.2 = []) := by
  refine ⟨fun _ _ => rfl, ?_, fun _ => rfl, fun _ _ => rfl, fun _ _ => rfl,
    fun _ _ => rfl, fun _ _ => rfl, fun _ _ _ => rfl⟩
  intro account reply h
  simp [slotLinkShareCreated, h]

/-- Closed instantiation of `C8_invalidation_frame`: a non-403 link-share
creation invalidates the parsed share's path. -/
theorem C8_invalidation_frame_witness :
    (slotLinkShareCreated ⟨0, "https://srv"⟩ emptyDataReply).2 =
      [(parseLinkShare ⟨0, "https://srv"⟩ (ocsData emptyDataReply)).path] :=
  C8_invalidation_frame.2.1 ⟨0, "https://srv"⟩ emptyDataReply (by decide)

/-- C9: transport failures of `setPassword` are routed to the distinguished
`passwordSetError` event and never to the generic `serverError` event, while
the other four per-entity mutators route them to `serverError`. -/
theorem C9_password_error_channel :
    (∀ c m, mutatorErrorEvents .setPasswordOp c m = [.passwordSetError c m]) ∧
    (∀ c m cc mm, Event.serverError cc mm ∉ mutatorErrorEvents .setPasswordOp c m) ∧
    (∀ c m, mutatorErrorEvents .setPermissionsOp c m = [.serverError c m]) ∧
    (∀ c m, mutatorErrorEvents .deleteShareOp c m = [.serverError c m]) ∧
    (∀ c m, mutatorErrorEvents .setNameOp c m = [.serverError c m]) ∧
    (∀ c m, mutatorErrorEvents .setExpireDateOp c m = [.serverError c m]) := by
  refine ⟨fun _ _ => rfl, ?_, fun _ _ => rfl, fun _ _ => rfl, fun _ _ => rfl,
    fun _ _ => rfl⟩
  intro c m cc mm
  simp [mutatorErrorEvents, slotSetPasswordError]

/-- Closed instantiation of `C9_password_error_channel`: no `serverError` is
emitted for a failed `setPassword`. -/
theorem C9_password_error_channel_witness :
    Event.serverError 500 "boom" ∉ mutatorErrorEvents .setPasswordOp 500 "boom" :=
  C9_password_error_channel.2.1 500 "boom" 500 "boom"

theorem qStartsWith_iff (s p : List Char) :
    qStartsWith s p = true ↔ ∃ t, s = p ++ t := by
  induction p generalizing s with
  | nil =>
    cases s <;> simp [qStartsWith]
  | cons d p ih =>
    cases s with
    | nil => simp [qStartsWith]
    | cons c s =>
      rw [qStartsWith, Bool.and_eq_true, beq_iff_eq, ih]
      constructor
      · rintro ⟨rfl, t, rfl⟩
        exact ⟨t, rfl⟩
      · rintro ⟨t, h⟩
        injection h with h1 h2
        exact ⟨h1, t, h2⟩

/-- C4: a sync root matches a remote path exactly when the path equals the
root's remote path or the root's remote path is a proper leading segment of
the path ending at a `/` boundary (the next path character is `/`, or the
root itself ends in `/`); a mere string-leading segment never matches. Root
`/a/b` matches `/a/b` and `/a/b/c` but not `/a/bc` or `/a`. Every matching
folder of the account receives the path relative to the root with one
leading `/` stripped, to be excluded from db reads on the next sync, and an
expedited sync. -/
theorem C4_invalidation_matching :
    (∀ root path, folderMatches root path = true ↔
      path = root ∨ ∃ c rest, path = root ++ c :: rest ∧
        (c = '/' ∨ root.getLast? = some '/')) ∧
    (folderMatches "/a/b".toList "/a/b".toList = true) ∧
    (folderMatches "/a/b".toList "/a/b/c".toList = true) ∧
    (folderMatches "/a/b".toList "/a/bc".toList = false) ∧
    (folderMatches "/a/b".toList "/a".toList = false) ∧
    (∀ accId path folders f, f ∈ folders → f.accountId = accId →
      folderMatches f.remotePath path = true →
      (f, relativeOf f.remotePath path) ∈ updateFolder accId path folders) ∧
    (updateFolder 7 "/a/b/c".toList [⟨7, "/a/b".toList⟩] =
      [(⟨7, "/a/b".toList⟩, "c".toList)]) := by
  refine ⟨?_, by decide, by decide, by decide, by decide, ?_, by decide⟩
  · intro root path
    rw [folderMatches, Bool.and_eq_true, Bool.or_eq_true, Bool.or_eq_true,
      qStartsWith_iff]
    constructor
    · rintro ⟨⟨t, rfl⟩, hb⟩
      cases t with
      | nil => exact Or.inl (by simp)
      | cons c rest =>
        refine Or.inr ⟨c, rest, rfl, ?_⟩
        rcases hb with (hb | hb) | hb
        · exfalso
          have h := beq_iff_eq.1 hb
          have := congrArg List.length h
          simp at this
        · exact Or.inr (by simpa [endsWithSlash, beq_iff_eq] using hb)
        · left
          rw [List.drop_left] at hb
          simpa using hb
    · intro h
      rcases h with rfl | ⟨c, rest, rfl, hc⟩
      · exact ⟨⟨[], by simp⟩, Or.inl (Or.inl (by simp))⟩
      · refine ⟨⟨c :: rest, rfl⟩, ?_⟩
        rcases hc with rfl | hlast
        · exact Or.inr (by simp [List.drop_left])
        · exact Or.inl (Or.inr (by simp [endsWithSlash, hlast]))
  · intro accId path folders f hf ha hm
    rw [updateFolder, List.mem_filterMap]
    refine ⟨f, hf, ?_⟩
    rw [ha, hm]
    simp

/-- Closed instantiation of `C4_invalidation_matching`: the matched folder
receives the stripped relative path. -/
theorem C4_invalidation_matching_witness :
    ((⟨7, "/a/b".toList⟩ : Folder), relativeOf "/a/b".toList "/a/b/c".toList) ∈
      updateFolder 7 "/a/b/c".toList [⟨7, "/a/b".toList⟩] :=
  C4_invalidation_matching.2.2.2.2.2.1 7 "/a/b/c".toList [⟨7, "/a/b".toList⟩]
    ⟨7, "/a/b".toList⟩ (by decide) rfl (by decide)
